import Mathlib

/-!
Verification of the `web-context-js` module loader hooks (`src/index.mjs`):
the specifier classifier `isReservedSpecifier`, the text formatters
`curlyQuote` / `italicize` / `underline` / `redden`, the diagnostic error
type `InvalidModuleSpecifierError`, the `resolve` hook, and the
uncaughtException reporter.

Modelling conventions:
* JS strings are Lean `String` (a list of characters; the claims at hand
  never depend on UTF-16 code-unit subtleties).
* The process-wide boolean imported from the `supports-ansi` package (the
  Rich-Output Flag) is an explicit `Bool` argument `supportsAnsi`.
* The process working directory `process.cwd()` is an explicit `String`
  argument `cwd`; the platform newline marker (`os.EOL`) is an explicit
  argument.
* `resolve` is an `async` function that either throws or returns; it is
  modelled as `Except InvalidModuleSpecifierError α`.  The delegated
  resolver `defaultResolve` is an abstract function argument; in JS it is
  additionally passed itself as a third argument, which the model elides
  because the function value is abstract here.
* The third-party `columnify` library is an abstract function argument of
  the reporter model (it is not code of this repository).
-/

namespace WebContextJs

/-! ### Escape tables

`UnicodeEscapes` enum from `src/index.mjs`, and the ANSI sequences produced
by the `cli-color` package's `italic`, `underline` and `red` styles. -/

def leftDoubleQuotes : String := "“"

def rightDoubleQuotes : String := "”"

def errorSymbol : String := "ⓧ"

def warningSymbol : String := "⚠"

def startItalics : String := "\x1b[3m"

def stopItalics : String := "\x1b[23m"

def startUnderline : String := "\x1b[4m"

def stopUnderline : String := "\x1b[24m"

def startRed : String := "\x1b[31m"

def stopRed : String := "\x1b[39m"

/-! ### Text formatters (`src/index.mjs` lines 96–130) -/

/-- `curlyQuote(arbitraryString)`: wraps with the curly double-quote marks,
independent of any terminal-capability flag. -/
def curlyQuote (arbitraryString : String) : String :=
  leftDoubleQuotes ++ arbitraryString ++ rightDoubleQuotes

/-- `italicize(arbitraryString)`: `supportsAnsi ? clc.italic(s) : s`. -/
def italicize (supportsAnsi : Bool) (arbitraryString : String) : String :=
  if supportsAnsi then startItalics ++ arbitraryString ++ stopItalics
  else arbitraryString

/-- `redden(arbitraryString)`: `supportsAnsi ? clc.red(s) : s`. -/
def redden (supportsAnsi : Bool) (arbitraryString : String) : String :=
  if supportsAnsi then startRed ++ arbitraryString ++ stopRed
  else arbitraryString

/-- `underline(arbitraryString)`: `supportsAnsi ? clc.underline(s) : s`. -/
def underline (supportsAnsi : Bool) (arbitraryString : String) : String :=
  if supportsAnsi then startUnderline ++ arbitraryString ++ stopUnderline
  else arbitraryString

/-! ### Specifier classifier (`src/index.mjs` lines 83–88) -/

/-- The test of the anchored regular expression `/^\.{0,2}\//` on the
character sequence of a string: zero, one, or two leading U+002E FULL STOP
characters followed immediately by U+002F SOLIDUS.  The three alternatives
are structurally disjoint, so a direct three-pattern match is the exact
backtracking semantics of the greedy `{0,2}` quantifier. -/
def regexDotsSlashTest : List Char → Bool
  | '/' :: _ => true
  | '.' :: '/' :: _ => true
  | '.' :: '.' :: '/' :: _ => true
  | _ => false

/-- `String.prototype.startsWith` on character sequences: `startsWithChars
l p` is true when the pattern `p` is an initial segment of `l`. -/
def startsWithChars : List Char → List Char → Bool
  | _, [] => true
  | [], _ :: _ => false
  | c :: cs, p :: ps => c == p && startsWithChars cs ps

/-- `s.startsWith(p)` for strings. -/
def strStartsWith (s p : String) : Bool :=
  startsWithChars s.data p.data

/-- `isReservedSpecifier(specifier)` from `src/index.mjs`:
```js
if (!/^\.{0,2}\//.test(specifier) && !specifier.startsWith('file://')) {
  return true;
}
return false;
``` -/
def isReservedSpecifier (specifier : String) : Bool :=
  if !regexDotsSlashTest specifier.data && !strStartsWith specifier "file://" then
    true
  else
    false

/-- Spec-side notion of "begins with": `s` has `p` as a literal leading
substring. -/
def BeginsWith (p s : String) : Prop :=
  ∃ t : String, s = p ++ t

/-! ### Process base URL (`src/index.mjs` lines 35–36)

```js
const baseURL = new URL('file://');
baseURL.pathname = `${process.cwd()}/`;
```
`baseURL.href` serializes as scheme `file`, `//`, empty host, then the
pathname.  The WHATWG URL path serializer percent-encodes a few special
characters; that encoding is the identity on ordinary directory paths and
is elided here. -/

def baseURLHref (cwd : String) : String :=
  "file://" ++ cwd ++ "/"

/-! ### Diagnostic error type (`src/index.mjs` lines 148–157) -/

/-- `InvalidModuleSpecifierError extends TypeError`.  `isTypeError`
records that every instance satisfies `instanceof TypeError`. -/
structure InvalidModuleSpecifierError where
  message : String
  code : String
  isTypeError : Bool
deriving Repr, DecidableEq

/-- The constructor `new InvalidModuleSpecifierError(specifier,
referrerUrl)`.  The message concatenation mirrors the source's template
literals segment by segment:
```js
`Failed to resolve module specifier ${curlyQuote(specifier)} imported ` +
  `from ${underline(referrerUrl)}. Bare specifiers are reserved for ` +
  `potential future use and relative references ${italicize('must')} ` +
  `begin with either ${curlyQuote('/')}, ${curlyQuote('./')}, or ` +
  `${curlyQuote('../')}.`
``` -/
def mkInvalidModuleSpecifierError (supportsAnsi : Bool)
    (specifier referrerUrl : String) : InvalidModuleSpecifierError where
  message :=
    ("Failed to resolve module specifier " ++ curlyQuote specifier ++ " imported ") ++
      ("from " ++ underline supportsAnsi referrerUrl ++ ". Bare specifiers are reserved for ") ++
      ("potential future use and relative references " ++ italicize supportsAnsi "must" ++ " ") ++
      ("begin with either " ++ curlyQuote "/" ++ ", " ++ curlyQuote "./" ++ ", or ") ++
      (curlyQuote "../" ++ ".")
  code := "ERR_INVALID_MODULE_SPECIFIER"
  isTypeError := true

/-! ### Resolution hook (`src/index.mjs` lines 176–184) -/

/-- The `context` argument of the resolve hook.  `conditions` is an
`Option` because the fresh object literal `{ parentURL }` that `resolve`
builds for the delegated call carries no `conditions` property at all. -/
structure ResolveContext where
  parentURL : Option String
  conditions : Option (List String)
deriving Repr, DecidableEq

/-- The resolve hook:
```js
export async function resolve(specifier, context, defaultResolve) {
  const { parentURL = baseURL.href } = context;
  if (isReservedSpecifier(specifier)) {
    throw new InvalidModuleSpecifierError(specifier, parentURL);
  }
  return defaultResolve(specifier, { parentURL }, defaultResolve);
}
``` -/
def resolve {α : Type} (supportsAnsi : Bool) (cwd : String) (specifier : String)
    (context : ResolveContext) (defaultResolve : String → ResolveContext → α) :
    Except InvalidModuleSpecifierError α :=
  let parentURL := context.parentURL.getD (baseURLHref cwd)
  if isReservedSpecifier specifier then
    Except.error (mkInvalidModuleSpecifierError supportsAnsi specifier parentURL)
  else
    Except.ok (defaultResolve specifier { parentURL := some parentURL, conditions := none })

/-! ### Uncaught-exception reporter (`src/index.mjs` lines 44–67) -/

/-- The shape of a JS error value as the handler observes it:
whether `err instanceof TypeError` holds, and `err.message`. -/
structure JsError where
  isTypeError : Bool
  message : String
deriving Repr, DecidableEq

/-- The `errorText` local of the handler:
```js
const errorText = `Uncaught ${
  err instanceof TypeError ? 'TypeError' : 'Error'
}: ${err.message}`;
``` -/
def uncaughtErrorText (err : JsError) : String :=
  "Uncaught " ++ (if err.isTypeError then "TypeError" else "Error") ++ ": " ++ err.message

/-- The string the handler passes to `writeSync(process.stderr.fd, ...)`:
the `columnify` rendering of the single row
`{ symbol: redden(UnicodeEscapes.errorSymbol), description: redden(errorText) }`
followed by the platform newline marker (`os.EOL`).  `columnifyRow` is the
third-party `columnify` layout applied to that row's two cells (abstract:
it is library code, not code of this repository); `newlineMarker` is the
platform's `os.EOL`. -/
def uncaughtExceptionOutput (columnifyRow : String → String → String)
    (supportsAnsi : Bool) (newlineMarker : String) (err : JsError) : String :=
  let errorText := uncaughtErrorText err
  let columns := columnifyRow (redden supportsAnsi errorSymbol) (redden supportsAnsi errorText)
  columns ++ newlineMarker

/-! ### Helper lemmas about the classifier -/

theorem startsWithChars_iff (p l : List Char) :
    startsWithChars l p = true ↔ ∃ t, l = p ++ t := by
  induction p generalizing l with
  | nil => simp [startsWithChars]
  | cons q qs ih =>
    cases l with
    | nil => simp [startsWithChars]
    | cons c cs =>
      simp [startsWithChars, ih, exists_and_left]

theorem regexDotsSlashTest_iff (l : List Char) :
    regexDotsSlashTest l = true ↔
      (∃ t, l = '/' :: t) ∨ (∃ t, l = '.' :: '/' :: t) ∨
        (∃ t, l = '.' :: '.' :: '/' :: t) := by
  constructor
  · intro h
    unfold regexDotsSlashTest at h
    split at h
    · next t => exact Or.inl ⟨t, rfl⟩
    · next t => exact Or.inr (Or.inl ⟨t, rfl⟩)
    · next t => exact Or.inr (Or.inr ⟨t, rfl⟩)
    · exact absurd h (by simp)
  · rintro (⟨t, rfl⟩ | ⟨t, rfl⟩ | ⟨t, rfl⟩) <;> rfl

theorem isReservedSpecifier_false_iff (s : String) :
    isReservedSpecifier s = false ↔
      regexDotsSlashTest s.data = true ∨ strStartsWith s "file://" = true := by
  unfold isReservedSpecifier
  cases h1 : regexDotsSlashTest s.data <;>
    cases h2 : strStartsWith s "file://" <;> simp [h1, h2]

theorem beginsWith_iff_data (p s : String) :
    BeginsWith p s ↔ ∃ l : List Char, s.data = p.data ++ l := by
  constructor
  · rintro ⟨t, rfl⟩
    exact ⟨t.data, String.data_append p t⟩
  · rintro ⟨l, h⟩
    refine ⟨⟨l⟩, String.ext ?_⟩
    rw [String.data_append]
    exact h

/-! ### Claim theorems -/

/-- C1: `isReservedSpecifier(s)` returns `false` exactly when `s` begins
with `/`, `./`, `../` (zero, one, or two leading `.` characters followed
immediately by `/`) or with the literal text `file://`; otherwise it
returns `true`, in particular on `""`, `"lodash"`, `"@scope/pkg"` and
`"http://example.com/x"`.  The function inspects literal leading
characters only (no normalization, case-folding or percent-decoding) and
is total. -/
theorem c1_isReservedSpecifier_characterization :
    (∀ s : String, isReservedSpecifier s = false ↔
      (BeginsWith "/" s ∨ BeginsWith "./" s ∨ BeginsWith "../" s ∨
        BeginsWith "file://" s)) ∧
    isReservedSpecifier "" = true ∧ isReservedSpecifier "lodash" = true ∧
    isReservedSpecifier "@scope/pkg" = true ∧
    isReservedSpecifier "http://example.com/x" = true := by
  refine ⟨?_, by decide, by decide, by decide, by decide⟩
  intro s
  rw [isReservedSpecifier_false_iff, regexDotsSlashTest_iff,
    beginsWith_iff_data, beginsWith_iff_data, beginsWith_iff_data,
    beginsWith_iff_data, strStartsWith, startsWithChars_iff]
  simp only [show ("/" : String).data = ['/'] from rfl,
    show ("./" : String).data = ['.', '/'] from rfl,
    show ("../" : String).data = ['.', '.', '/'] from rfl,
    List.singleton_append, List.cons_append, List.nil_append]
  tauto

/-- C7: `curlyQuote` always wraps its argument with the curly double-quote
characters U+201C/U+201D (it never consults the Rich-Output Flag), while
`italicize` and `underline` wrap with their ANSI start/stop style-escape
pairs when the flag is true and are the identity when it is false. -/
theorem c7_formatters :
    ∀ s : String,
      curlyQuote s = "“" ++ s ++ "”" ∧
      italicize true s = startItalics ++ s ++ stopItalics ∧
      italicize false s = s ∧
      underline true s = startUnderline ++ s ++ stopUnderline ∧
      underline false s = s := by
  intro s
  exact ⟨rfl, rfl, rfl, rfl, rfl⟩

/-- C10: appending any suffix to an accepted (non-reserved) specifier
keeps it accepted: acceptance is decided solely by the literal prefix, so
e.g. `"file://" ++ "../.."` is still accepted. -/
theorem c10_suffix_irrelevance (s t : String)
    (h : isReservedSpecifier s = false) :
    isReservedSpecifier (s ++ t) = false := by
  rw [isReservedSpecifier_false_iff] at h ⊢
  rcases h with h | h
  · left
    rw [regexDotsSlashTest_iff] at h ⊢
    rw [String.data_append]
    rcases h with ⟨u, hu⟩ | ⟨u, hu⟩ | ⟨u, hu⟩ <;> rw [hu]
    · exact Or.inl ⟨u ++ t.data, by simp⟩
    · exact Or.inr (Or.inl ⟨u ++ t.data, by simp⟩)
    · exact Or.inr (Or.inr ⟨u ++ t.data, by simp⟩)
  · right
    rw [strStartsWith, startsWithChars_iff] at h ⊢
    obtain ⟨u, hu⟩ := h
    rw [String.data_append, hu]
    exact ⟨u ++ t.data, by simp⟩

/-- Witness for C10 at the concrete input from the claim:
`"file://"` is accepted, and so is `"file://" ++ "../.."`. -/
theorem c10_suffix_irrelevance_witness :
    isReservedSpecifier "file://" = false ∧
      isReservedSpecifier ("file://" ++ "../..") = false :=
  ⟨by decide, c10_suffix_irrelevance "file://" "../.." (by decide)⟩

/-- C2: on a reserved specifier, `resolve` fails with the
`InvalidModuleSpecifierError` built from the specifier and the derived
referrer location, that error's `code` is `ERR_INVALID_MODULE_SPECIFIER`,
and the delegated resolver is never invoked: the result is the same for
every delegated resolver. -/
theorem c2_resolve_rejects_reserved {α : Type} (supportsAnsi : Bool)
    (cwd s : String) (context : ResolveContext)
    (defaultResolve : String → ResolveContext → α)
    (h : isReservedSpecifier s = true) :
    resolve supportsAnsi cwd s context defaultResolve =
      Except.error (mkInvalidModuleSpecifierError supportsAnsi s
        (context.parentURL.getD (baseURLHref cwd))) ∧
    (mkInvalidModuleSpecifierError supportsAnsi s
        (context.parentURL.getD (baseURLHref cwd))).code =
      "ERR_INVALID_MODULE_SPECIFIER" ∧
    ∀ other : String → ResolveContext → α,
      resolve supportsAnsi cwd s context defaultResolve =
        resolve supportsAnsi cwd s context other := by
  refine ⟨by simp [resolve, h], rfl, ?_⟩
  intro other
  simp [resolve, h]

/-- Witness for C2: `resolve("lodash", { parentURL: "file:///a/b.js",
conditions: ["node", "import"] }, next)` rejects with the diagnostic error
and `next` is irrelevant to the result. -/
theorem c2_resolve_rejects_reserved_witness :
    isReservedSpecifier "lodash" = true ∧
    resolve (α := Nat) false "/cwd" "lodash"
        ⟨some "file:///a/b.js", some ["node", "import"]⟩ (fun _ _ => 0) =
      Except.error (mkInvalidModuleSpecifierError false "lodash" "file:///a/b.js") ∧
    (mkInvalidModuleSpecifierError false "lodash" "file:///a/b.js").code =
      "ERR_INVALID_MODULE_SPECIFIER" :=
  ⟨by decide, by
    have h := c2_resolve_rejects_reserved (α := Nat) false "/cwd" "lodash"
      ⟨some "file:///a/b.js", some ["node", "import"]⟩ (fun _ _ => 0) (by decide)
    exact h.1, by
    have h := c2_resolve_rejects_reserved (α := Nat) false "/cwd" "lodash"
      ⟨some "file:///a/b.js", some ["node", "import"]⟩ (fun _ _ => 0) (by decide)
    exact h.2.1⟩

/-- C3: on a non-reserved specifier, `resolve` returns exactly the result
of the delegated resolver applied to the specifier and the fresh context
`{ parentURL: referrerLocation }`, where the referrer location is
`context.parentURL` or the process base URL when absent — a pure
pass-through. -/
theorem c3_resolve_passthrough {α : Type} (supportsAnsi : Bool)
    (cwd s : String) (context : ResolveContext)
    (defaultResolve : String → ResolveContext → α)
    (h : isReservedSpecifier s = false) :
    resolve supportsAnsi cwd s context defaultResolve =
      Except.ok (defaultResolve s
        ⟨some (context.parentURL.getD (baseURLHref cwd)), none⟩) := by
  simp [resolve, h]

/-- Witness for C3: `resolve("./a.js", { parentURL: "file:///a/b.js" },
next)` returns exactly `next("./a.js", { parentURL: "file:///a/b.js" })`,
observed with a resolver that echoes its arguments. -/
theorem c3_resolve_passthrough_witness :
    isReservedSpecifier "./a.js" = false ∧
    resolve (α := String × ResolveContext) false "/cwd" "./a.js"
        ⟨some "file:///a/b.js", none⟩ (fun sp c => (sp, c)) =
      Except.ok ("./a.js", ⟨some "file:///a/b.js", none⟩) :=
  ⟨by decide, by
    have h := c3_resolve_passthrough (α := String × ResolveContext) false "/cwd"
      "./a.js" ⟨some "file:///a/b.js", none⟩ (fun sp c => (sp, c)) (by decide)
    exact h⟩

/-- C4 counterexample: the claim "the context object that resolve forwards
to next contains the same conditions sequence it received" is false.  With
received conditions `["node", "import"]`, the context forwarded to the
delegated resolver (observed by echoing it) carries no conditions at all. -/
theorem c4_conditions_passthrough_counterexample :
    resolve (α := ResolveContext) false "/cwd" "./a.js"
        ⟨some "file:///a/b.js", some ["node", "import"]⟩ (fun _ c => c) =
      Except.ok ⟨some "file:///a/b.js", none⟩ ∧
    (none : Option (List String)) ≠ some ["node", "import"] :=
  ⟨rfl, by decide⟩

/-- C4 (amended): `resolve` never reads the conditions it receives — two
contexts differing only in `conditions` yield identical results — and the
fresh context it forwards to the delegated resolver carries no
`conditions` property (only `parentURL`), so conditions are dropped, not
passed through. -/
theorem c4_conditions_dropped {α : Type} (supportsAnsi : Bool)
    (cwd s : String) (p : Option String) (c₁ c₂ : Option (List String))
    (defaultResolve : String → ResolveContext → α) :
    resolve supportsAnsi cwd s ⟨p, c₁⟩ defaultResolve =
      resolve supportsAnsi cwd s ⟨p, c₂⟩ defaultResolve ∧
    (isReservedSpecifier s = false →
      resolve (α := Option (List String)) supportsAnsi cwd s ⟨p, c₁⟩
          (fun _ c => c.conditions) =
        Except.ok none) := by
  refine ⟨rfl, ?_⟩
  intro h
  simp [resolve, h]

/-- Witness for C4's amended statement at concrete inputs. -/
theorem c4_conditions_dropped_witness :
    resolve (α := Nat) false "/cwd" "./a.js"
        ⟨some "file:///a/b.js", some ["node"]⟩ (fun _ _ => 7) =
      resolve (α := Nat) false "/cwd" "./a.js"
        ⟨some "file:///a/b.js", some ["import"]⟩ (fun _ _ => 7) ∧
    resolve (α := Option (List String)) false "/cwd" "./a.js"
        ⟨some "file:///a/b.js", some ["node"]⟩ (fun _ c => c.conditions) =
      Except.ok none :=
  ⟨(c4_conditions_dropped (α := Nat) false "/cwd" "./a.js"
      (some "file:///a/b.js") (some ["node"]) (some ["import"])
      (fun _ _ => 7)).1,
   (c4_conditions_dropped (α := Nat) false "/cwd" "./a.js"
      (some "file:///a/b.js") (some ["node"]) (some ["import"])
      (fun _ _ => 7)).2 (by decide)⟩

/-- C6: when the context omits `parentURL`, the referrer location used —
in particular the one embedded in the rejection — is the process base URL
`"file://" ++ cwd ++ "/"`. -/
theorem c6_default_referrer_is_baseURL {α : Type} (supportsAnsi : Bool)
    (cwd s : String) (conds : Option (List String))
    (defaultResolve : String → ResolveContext → α)
    (h : isReservedSpecifier s = true) :
    baseURLHref cwd = "file://" ++ cwd ++ "/" ∧
    resolve supportsAnsi cwd s ⟨none, conds⟩ defaultResolve =
      Except.error (mkInvalidModuleSpecifierError supportsAnsi s
        ("file://" ++ cwd ++ "/")) := by
  refine ⟨rfl, ?_⟩
  simp [resolve, h, baseURLHref]

/-- Witness for C6: rejecting `"lodash"` with no `parentURL` in the
context embeds `file:///home/user/` (the base URL for working directory
`/home/user`) as the referrer. -/
theorem c6_default_referrer_is_baseURL_witness :
    isReservedSpecifier "lodash" = true ∧
    resolve (α := Nat) false "/home/user" "lodash" ⟨none, some []⟩
        (fun _ _ => 0) =
      Except.error (mkInvalidModuleSpecifierError false "lodash"
        "file:///home/user/") :=
  ⟨by decide, by
    have h := (c6_default_referrer_is_baseURL (α := Nat) false "/home/user"
      "lodash" (some []) (fun _ _ => 0) (by decide)).2
    exact h⟩

theorem strAppend_assoc (a b c : String) : a ++ b ++ c = a ++ (b ++ c) := by
  apply String.ext
  simp [String.data_append, List.append_assoc]

/-- C5: the message of the constructed `InvalidModuleSpecifierError` is
exactly the template
`'Failed to resolve module specifier ' + curlyQuote(s) + ' imported from '
+ underline(r) + '. Bare specifiers are reserved for potential future use
and relative references ' + italicize("must") + ' begin with either ' +
curlyQuote("/") + ', ' + curlyQuote("./") + ', or ' + curlyQuote("../") +
'.'`. -/
theorem c5_message_template (supportsAnsi : Bool) (s r : String) :
    (mkInvalidModuleSpecifierError supportsAnsi s r).message =
      "Failed to resolve module specifier " ++ curlyQuote s ++
        " imported from " ++ underline supportsAnsi r ++
        ". Bare specifiers are reserved for potential future use and relative references " ++
        italicize supportsAnsi "must" ++ " begin with either " ++
        curlyQuote "/" ++ ", " ++ curlyQuote "./" ++ ", or " ++
        curlyQuote "../" ++ "." := by
  have m1 : ∀ x : String, " imported " ++ ("from " ++ x) = " imported from " ++ x := by
    intro x
    rw [← strAppend_assoc]
    rfl
  have m2 : ∀ x : String,
      ". Bare specifiers are reserved for " ++
          ("potential future use and relative references " ++ x) =
        ". Bare specifiers are reserved for potential future use and relative references " ++ x := by
    intro x
    rw [← strAppend_assoc]
    rfl
  have m3 : ∀ x : String, " " ++ ("begin with either " ++ x) = " begin with either " ++ x := by
    intro x
    rw [← strAppend_assoc]
    rfl
  simp only [mkInvalidModuleSpecifierError, strAppend_assoc, m1, m2, m3]

/-- C8: the reporter's rendered description is
`"Uncaught " ++ kind ++ ": " ++ message` with kind `TypeError` for
TypeError instances and `Error` otherwise; for an uncaught
`TypeError("boom")` the description cell written (after the `redden`
styling) contains exactly `Uncaught TypeError: boom`. -/
theorem c8_uncaught_description (err : JsError) (supportsAnsi : Bool) :
    uncaughtErrorText err =
      "Uncaught " ++ (if err.isTypeError then "TypeError" else "Error") ++
        ": " ++ err.message ∧
    uncaughtErrorText ⟨true, "boom"⟩ = "Uncaught TypeError: boom" ∧
    ∃ pre post,
      redden supportsAnsi (uncaughtErrorText ⟨true, "boom"⟩) =
        pre ++ "Uncaught TypeError: boom" ++ post := by
  refine ⟨rfl, by decide, ?_⟩
  cases supportsAnsi
  · exact ⟨"", "", by decide⟩
  · exact ⟨startRed, stopRed, by decide⟩

/-- C9: the text the reporter hands to the synchronous write is the
rendered columnify table followed by — i.e. terminated with — the
platform's newline marker. -/
theorem c9_output_newline_terminated (columnifyRow : String → String → String)
    (supportsAnsi : Bool) (newlineMarker : String) (err : JsError) :
    uncaughtExceptionOutput columnifyRow supportsAnsi newlineMarker err =
      columnifyRow (redden supportsAnsi errorSymbol)
        (redden supportsAnsi (uncaughtErrorText err)) ++ newlineMarker ∧
    ∃ rendered,
      uncaughtExceptionOutput columnifyRow supportsAnsi newlineMarker err =
        rendered ++ newlineMarker :=
  ⟨rfl, ⟨_, rfl⟩⟩

end WebContextJs
